import Mathlib

/-!
# Gesture-Media-Control: the zone classifier and the frame loop of `frontend/app.js`

The development embeds the callback that `runDetection` passes to
`model.detect(video).then(...)` (one classification pass) and the event
handlers that start and keep alive the detection loop.

* Numbers are exact rationals (`ℚ`): canvas sizes, box coordinates, volume and
  times.
* The playback element is reduced to the fields the pass reads or writes
  (`volume`, `currentTime`, `duration`, `paused`) together with a log of the
  `play()` / `pause()` calls made on it.
* Canvas drawing (grid, labels, highlight, volume bar) has no influence on the
  action or on the playback element and is left out.
-/

namespace GestureControl

/-! ## Data model -/

/-- Values of `currentAction`: the six action tags assigned by the ladder and
`noAction` for the initial `null`.  In the wording of the specification these
are VolumeUp, VolumeDown, Play, Pause, Rewind, Forward and None. -/
inductive Action where
  | volUp
  | volDown
  | play
  | pause
  | rewind
  | forward
  | noAction
  deriving DecidableEq, Repr

/-- The JavaScript values a prediction carries in its `label` and `class`
properties: absent, a string, or an integer class id. -/
inductive JSVal where
  | undefined
  | str (s : String)
  | num (n : Int)
  deriving DecidableEq, Repr

/-- JavaScript truthiness for the values above. -/
def JSVal.truthy : JSVal → Bool
  | .undefined => false
  | .str s => !s.data.isEmpty
  | .num n => n != 0

/-- The operator `a || b`. -/
def JSVal.or (a b : JSVal) : JSVal :=
  if a.truthy then a else b

/-- The conversion `String(v)`, as a list of characters. -/
def JSVal.toChars : JSVal → List Char
  | .undefined => "undefined".data
  | .str s => s.data
  | .num n => (toString n).data

/-- The method `toLowerCase()`.  Only the letters A-Z are mapped; no other
character lower-cases to one of the letters of `face`, so the test below is
not affected by the remaining case mappings. -/
def toLowerCase (cs : List Char) : List Char :=
  cs.map Char.toLower

/-- The method `s.includes(pat)`: `pat` occurs in `s` as a contiguous run. -/
def includes : List Char → List Char → Bool
  | [], pat => pat.isEmpty
  | c :: cs, pat => pat.isPrefixOf (c :: cs) || includes cs pat

/-- The bounding box `[x, y, width, height]` of a prediction. -/
structure BBox where
  x : ℚ
  y : ℚ
  w : ℚ
  h : ℚ
  deriving DecidableEq, Repr

/-- One prediction returned by `model.detect`. -/
structure Detection where
  label : JSVal
  cls : JSVal
  bbox : BBox
  deriving DecidableEq, Repr

/-- Calls made on the playback element. -/
inductive MediaCall where
  | play
  | pause
  deriving DecidableEq, Repr

/-- The playback element `videoPlayer`, with the log of the calls made on it
(most recent first). -/
structure PlaybackState where
  volume : ℚ
  currentTime : ℚ
  duration : ℚ
  paused : Bool
  calls : List MediaCall
  deriving DecidableEq, Repr

/-- The call `videoPlayer.play()`: the element is no longer paused. -/
def PlaybackState.play (v : PlaybackState) : PlaybackState :=
  { v with paused := false, calls := MediaCall.play :: v.calls }

/-- The call `videoPlayer.pause()`: the element is paused. -/
def PlaybackState.pause (v : PlaybackState) : PlaybackState :=
  { v with paused := true, calls := MediaCall.pause :: v.calls }

/-- What one pass leaves behind: the status text, `currentAction` and the
playback element. -/
structure PassResult where
  gestureText : String
  currentAction : Action
  videoPlayer : PlaybackState
  deriving DecidableEq, Repr

/-! ## The classification pass -/

/-- The text `lbl` computed for a prediction inside `predictions.some`. -/
def lbl (p : Detection) : List Char :=
  if (p.label.or p.cls).truthy then toLowerCase (p.label.or p.cls).toChars else []

/-- The flag `hasFace`. -/
def hasFace (predictions : List Detection) : Bool :=
  predictions.any (fun p => includes (lbl p) "face".data)

/-- The if/else ladder of `runDetection` on the anchor `(x, y)` of the first
prediction, for a canvas of size `width` by `height`. -/
def zoneLadder (width height x y : ℚ) (videoPlayer : PlaybackState) : PassResult :=
  if y < height / 3 ∧ x > (width * 2) / 3 then
    { gestureText := "Volume Up"
      currentAction := .volUp
      videoPlayer := { videoPlayer with volume := min 1 (videoPlayer.volume + 0.05) } }
  else if y > (height * 2) / 3 ∧ x > (width * 2) / 3 then
    { gestureText := "Volume Down"
      currentAction := .volDown
      videoPlayer := { videoPlayer with volume := max 0 (videoPlayer.volume - 0.05) } }
  else if y < height / 3 ∧ x > width / 3 ∧ x < (width * 2) / 3 then
    { gestureText := "Play"
      currentAction := .play
      videoPlayer := if videoPlayer.paused then videoPlayer.play else videoPlayer }
  else if y > (height * 2) / 3 ∧ x > width / 3 ∧ x < (width * 2) / 3 then
    { gestureText := "Pause"
      currentAction := .pause
      videoPlayer := if !videoPlayer.paused then videoPlayer.pause else videoPlayer }
  else if x < width / 3 then
    { gestureText := "Rewind 5s"
      currentAction := .rewind
      videoPlayer :=
        { videoPlayer with currentTime := max 0 (videoPlayer.currentTime - 5) } }
  else if x > (width * 2) / 3 then
    if y > height / 3 ∧ y < (height * 2) / 3 then
      { gestureText := "Forward 5s"
        currentAction := .forward
        videoPlayer :=
          { videoPlayer with
            currentTime := min videoPlayer.duration (videoPlayer.currentTime + 5) } }
    else
      { gestureText := "Hand detected - no action"
        currentAction := .noAction
        videoPlayer := videoPlayer }
  else
    { gestureText := "Hand detected - no action"
      currentAction := .noAction
      videoPlayer := videoPlayer }

/-- One classification pass: the part of the callback of
`model.detect(video).then` that computes `currentAction` and acts on the
playback element. -/
def detectionPass (width height : ℚ) (predictions : List Detection)
    (videoPlayer : PlaybackState) : PassResult :=
  match predictions with
  | [] =>
    { gestureText := "No hand detected"
      currentAction := .noAction
      videoPlayer := videoPlayer }
  | hand :: _ =>
    if hasFace predictions then
      { gestureText := "Face detected - no action"
        currentAction := .noAction
        videoPlayer := videoPlayer }
    else
      zoneLadder width height hand.bbox.x hand.bbox.y videoPlayer

/-- The statements on `videoPlayer` in the body of the branch that assigns
each action tag; nothing is done where no tag is assigned. -/
def sideEffect : Action → PlaybackState → PlaybackState
  | .volUp, v => { v with volume := min 1 (v.volume + 0.05) }
  | .volDown, v => { v with volume := max 0 (v.volume - 0.05) }
  | .play, v => if v.paused then v.play else v
  | .pause, v => if !v.paused then v.pause else v
  | .rewind, v => { v with currentTime := max 0 (v.currentTime - 5) }
  | .forward, v => { v with currentTime := min v.duration (v.currentTime + 5) }
  | .noAction, v => v

/-- The bounds of the playback element: volume in [0, 1] and the position in
[0, duration]. -/
def PlaybackState.inBounds (v : PlaybackState) : Prop :=
  0 ≤ v.volume ∧ v.volume ≤ 1 ∧ 0 ≤ v.currentTime ∧ v.currentTime ≤ v.duration

/-- Prediction with a label, no class, and the given box. -/
def labelled (s : String) (x y w h : ℚ) : Detection :=
  { label := .str s, cls := .undefined, bbox := ⟨x, y, w, h⟩ }

/-- Prediction that carries both properties: label `open`, class `face`, box
(250, 10, 50, 50). -/
def openWithFaceClass : Detection :=
  { label := .str "open", cls := .str "face", bbox := ⟨250, 10, 50, 50⟩ }

/-- Playback element used in the worked examples: half volume, ten seconds
into a one-minute clip, paused. -/
def demoPlayer : PlaybackState :=
  { volume := 1 / 2, currentTime := 10, duration := 60, paused := true, calls := [] }

/-! ## The ladder as the specification words it -/

/-- The seven-rule ladder of the specification (section 4.1), first match
wins: 1 VolumeUp, 2 VolumeDown, 3 Play, 4 Pause, 5 Rewind, 6 Forward,
7 None. -/
def specLadder (W H x y : ℚ) : Action :=
  if y < H / 3 ∧ x > 2 * W / 3 then .volUp
  else if y > 2 * H / 3 ∧ x > 2 * W / 3 then .volDown
  else if y < H / 3 ∧ (W / 3 < x ∧ x < 2 * W / 3) then .play
  else if y > 2 * H / 3 ∧ (W / 3 < x ∧ x < 2 * W / 3) then .pause
  else if x < W / 3 then .rewind
  else if x > 2 * W / 3 ∧ (H / 3 < y ∧ y < 2 * H / 3) then .forward
  else .noAction

/-- A label or class value that is a string containing the word `face`, the
letters in any case. -/
def mentionsFace : JSVal → Prop
  | .str s => ∃ pre w suf, s.data = pre ++ w ++ suf ∧ toLowerCase w = "face".data
  | _ => False

/-! ## Zones -/

/-- The three equal parts of an axis, in increasing coordinate order. -/
inductive Third where
  | low
  | middle
  | high
  deriving DecidableEq, Repr

/-- The open third `t` of an axis of length `L`; the dividing lines are the
ones the pass draws at `L / 3` and `(L * 2) / 3`. -/
def inThird (L : ℚ) : Third → ℚ → Prop
  | .low, v => 0 < v ∧ v < L / 3
  | .middle, v => L / 3 < v ∧ v < (L * 2) / 3
  | .high, v => (L * 2) / 3 < v ∧ v < L

/-- The open zone in column `c` and row `r` of a `W` by `H` canvas. -/
def inZone (W H : ℚ) (c r : Third) (x y : ℚ) : Prop :=
  inThird W c x ∧ inThird H r y

/-- The nine zones, as (column, row). -/
def allZones : List (Third × Third) :=
  [(.low, .low), (.low, .middle), (.low, .high),
   (.middle, .low), (.middle, .middle), (.middle, .high),
   (.high, .low), (.high, .middle), (.high, .high)]

/-- The action of each zone (column, row); row `low` is the top of the
canvas.  The left column as a whole is the rectangle the pass highlights for
`rewind`. -/
def zoneTable : Third → Third → Action
  | .low, _ => .rewind
  | .middle, .low => .play
  | .middle, .middle => .noAction
  | .middle, .high => .pause
  | .high, .low => .volUp
  | .high, .middle => .forward
  | .high, .high => .volDown

/-- Number of zones that a table maps to an action other than `noAction`. -/
def mappedZones (f : Third → Third → Action) : Nat :=
  (allZones.filter (fun z => decide (f z.1 z.2 ≠ Action.noAction))).length

/-- Number of zones that a table maps to `noAction`. -/
def unmappedZones (f : Third → Third → Action) : Nat :=
  (allZones.filter (fun z => decide (f z.1 z.2 = Action.noAction))).length

/-! ## The ladder as a list of branches -/

/-- One `if` / `else if` of the ladder: its guard and the action tag its
body assigns. -/
structure Branch where
  guard : ℚ → ℚ → ℚ → ℚ → Bool
  body : ℚ → ℚ → ℚ → ℚ → Action

/-- First match wins; when no guard holds the final `else` assigns nothing. -/
def firstMatch (width height x y : ℚ) : List Branch → Action
  | [] => .noAction
  | b :: bs =>
    if b.guard width height x y then b.body width height x y
    else firstMatch width height x y bs

/-- Branch `if (y < height / 3 && x > (width * 2) / 3)`. -/
def branchVolUp : Branch :=
  { guard := fun width height x y => decide (y < height / 3 ∧ x > (width * 2) / 3)
    body := fun _ _ _ _ => .volUp }

/-- Branch `else if (y > (height * 2) / 3 && x > (width * 2) / 3)`. -/
def branchVolDown : Branch :=
  { guard := fun width height x y => decide (y > (height * 2) / 3 ∧ x > (width * 2) / 3)
    body := fun _ _ _ _ => .volDown }

/-- Branch `else if (y < height / 3 && x > width / 3 && x < (width * 2) / 3)`. -/
def branchPlay : Branch :=
  { guard := fun width height x y =>
      decide (y < height / 3 ∧ x > width / 3 ∧ x < (width * 2) / 3)
    body := fun _ _ _ _ => .play }

/-- Branch
`else if (y > (height * 2) / 3 && x > width / 3 && x < (width * 2) / 3)`. -/
def branchPause : Branch :=
  { guard := fun width height x y =>
      decide (y > (height * 2) / 3 ∧ x > width / 3 ∧ x < (width * 2) / 3)
    body := fun _ _ _ _ => .pause }

/-- Branch `else if (x < width / 3)`. -/
def branchRewind : Branch :=
  { guard := fun width _ x _ => decide (x < width / 3)
    body := fun _ _ _ _ => .rewind }

/-- Branch `else if (x > (width * 2) / 3)`, whose body tests `y` itself. -/
def branchRight : Branch :=
  { guard := fun width _ x _ => decide (x > (width * 2) / 3)
    body := fun _ height _ y =>
      if y > height / 3 ∧ y < (height * 2) / 3 then .forward else .noAction }

/-- The branches in the order of the source. -/
def ladderBranches : List Branch :=
  [branchVolUp, branchVolDown, branchPlay, branchPause, branchRewind, branchRight]

/-- The same branches with the last one moved to the front. -/
def rightFirstBranches : List Branch :=
  [branchRight, branchVolUp, branchVolDown, branchPlay, branchPause, branchRewind]

/-! ## The driver: who starts `runDetection` -/

/-- The module-level flags together with what is waiting to run: the camera
request of `startVideo`, the model load, the callbacks registered with
`requestAnimationFrame(runDetection)` and the `model.detect` promises whose
`then` callback has not run yet. -/
structure Driver where
  cameraApi : Bool
  hasRequestedCamera : Bool
  model : Bool
  isVideo : Bool
  cameraPending : Bool
  loadPending : Bool
  scheduled : Nat
  detecting : Nat
  deriving DecidableEq, Repr

/-- What can happen after page load. -/
inductive Event where
  | click
  | cameraGranted
  | cameraFailed
  | modelLoaded
  | modelFailed
  | tick
  | detected
  deriving DecidableEq, Repr

/-- The synchronous part of `runDetection`: re-register when the model or the
video is missing, else call `model.detect`. -/
def runDetection (s : Driver) : Driver :=
  if !s.model || !s.isVideo then { s with scheduled := s.scheduled + 1 }
  else { s with detecting := s.detecting + 1 }

/-- The function `startVideo` up to its first `await`. -/
def startVideo (s : Driver) : Driver :=
  if !s.cameraApi then s else { s with cameraPending := true }

/-- One event: the start-button click handler, the continuation of
`startVideo` after the camera stream is playing (or its `catch`), the `then`
(or `catch`) of `handTrack.load`, an animation-frame callback, and the `then`
callback of `model.detect`.  An event that is not enabled changes nothing. -/
def step (s : Driver) : Event → Driver
  | .click =>
    if s.hasRequestedCamera then s
    else startVideo { s with hasRequestedCamera := true }
  | .cameraGranted =>
    if s.cameraPending then runDetection { s with cameraPending := false, isVideo := true }
    else s
  | .cameraFailed =>
    if s.cameraPending then { s with cameraPending := false } else s
  | .modelLoaded =>
    if s.loadPending then
      if !s.hasRequestedCamera then { s with model := true, loadPending := false }
      else runDetection { s with model := true, loadPending := false }
    else s
  | .modelFailed =>
    if s.loadPending then { s with loadPending := false } else s
  | .tick =>
    if 0 < s.scheduled then runDetection { s with scheduled := s.scheduled - 1 }
    else s
  | .detected =>
    if 0 < s.detecting then
      if s.isVideo then
        { s with detecting := s.detecting - 1, scheduled := s.scheduled + 1 }
      else { s with detecting := s.detecting - 1 }
    else s

/-- The events of a list, in order. -/
def run (s : Driver) (events : List Event) : Driver :=
  events.foldl step s

/-- Page load: nothing requested, the model load in flight. -/
def pageLoad : Driver :=
  { cameraApi := true, hasRequestedCamera := false, model := false, isVideo := false,
    cameraPending := false, loadPending := true, scheduled := 0, detecting := 0 }

/-- Number of `runDetection` passes that are scheduled or in flight. -/
def Driver.pending (s : Driver) : Nat :=
  s.scheduled + s.detecting

/-- The model is loaded and at most one loop has been started. -/
def Driver.oneLoop (s : Driver) : Prop :=
  s.loadPending = false ∧ (s.hasRequestedCamera = false → s.pending = 0)
    ∧ (s.cameraPending = true → s.hasRequestedCamera = true ∧ s.pending = 0)
    ∧ s.pending ≤ 1

/-- Both detection loops are running: flags settled, two passes pending. -/
def Driver.twoLoops (s : Driver) : Prop :=
  s.hasRequestedCamera = true ∧ s.model = true ∧ s.isVideo = true
    ∧ s.cameraPending = false ∧ s.loadPending = false ∧ s.pending = 2

/-! ## Basic facts -/

theorem includes_of_append (pre pat suf : List Char) :
    includes (pre ++ pat ++ suf) pat = true := by
  induction pre with
  | nil =>
    cases pat with
    | nil => cases suf <;> simp [includes]
    | cons c cs => simp [includes]
  | cons a pre ih =>
    have : includes (pre ++ (pat ++ suf)) pat = true := by simpa using ih
    simp [includes, this]

theorem lbl_of_mentionsFace_label (p : Detection) (h : mentionsFace p.label) :
    includes (lbl p) "face".data = true := by
  cases hl : p.label with
  | undefined => simp [hl, mentionsFace] at h
  | num n => simp [hl, mentionsFace] at h
  | str s =>
    rw [hl] at h
    obtain ⟨pre, w, suf, hs, hw⟩ := h
    have hne : s.data ≠ [] := by
      intro h0
      rw [h0] at hs
      have hw0 : w = [] := by
        have := congrArg List.length hs
        simp at this
        exact List.length_eq_zero.mp (by omega)
      rw [hw0] at hw
      simp [toLowerCase] at hw
    have ht : (JSVal.str s).truthy = true := by
      simp [JSVal.truthy, hne]
    have hlbl : lbl p = toLowerCase pre ++ "face".data ++ toLowerCase suf := by
      simp only [lbl, hl, JSVal.or, ht, if_true, JSVal.toChars, hs]
      simp only [toLowerCase, List.map_append] at hw ⊢
      rw [hw]
    rw [hlbl]
    exact includes_of_append _ _ _

theorem lbl_of_mentionsFace_cls (p : Detection) (hl : p.label.truthy = false)
    (h : mentionsFace p.cls) : includes (lbl p) "face".data = true := by
  have hor : p.label.or p.cls = p.cls := by simp [JSVal.or, hl]
  exact lbl_of_mentionsFace_label { p with label := p.cls }
    (by simpa using h) |> fun h2 => by
      have e : lbl { p with label := p.cls } = lbl p := by
        simp only [lbl, hor]
        cases hc : p.cls.truthy <;> simp [JSVal.or, hc]
      rwa [e] at h2

theorem hasFace_of_mem (predictions : List Detection) (p : Detection)
    (hp : p ∈ predictions) (h : includes (lbl p) "face".data = true) :
    hasFace predictions = true := by
  unfold hasFace
  exact List.any_eq_true.mpr ⟨p, hp, h⟩

theorem zoneLadder_action_eq_spec (W H x y : ℚ) (v : PlaybackState) :
    (zoneLadder W H x y v).currentAction = specLadder W H x y := by
  have e1 : W * 2 / 3 = 2 * W / 3 := by ring
  have e2 : H * 2 / 3 = 2 * H / 3 := by ring
  unfold zoneLadder specLadder
  rw [e1, e2]
  split_ifs <;> simp_all

theorem detectionPass_cons (W H : ℚ) (hand : Detection) (rest : List Detection)
    (v : PlaybackState) (hf : hasFace (hand :: rest) = false) :
    detectionPass W H (hand :: rest) v = zoneLadder W H hand.bbox.x hand.bbox.y v := by
  simp [detectionPass, hf]

theorem hasFace_open (x y w h : ℚ) : hasFace [labelled "open" x y w h] = false := by
  have e : lbl (labelled "open" x y w h) = lbl (labelled "open" 0 0 0 0) := rfl
  have d : includes (lbl (labelled "open" 0 0 0 0)) "face".data = false := by decide
  simp [hasFace, e, d]

theorem zoneLadder_rewind (W H x y : ℚ) (v : PlaybackState) (hW : 0 ≤ W)
    (hx : x < W / 3) : (zoneLadder W H x y v).currentAction = .rewind := by
  have h1 : ¬ x > W * 2 / 3 := by
    intro h
    have : W / 3 ≤ W * 2 / 3 := by linarith
    linarith
  have h2 : ¬ x > W / 3 := by
    intro h
    linarith
  simp [zoneLadder, h1, h2, hx]

theorem zoneLadder_boundary (W H y : ℚ) (v : PlaybackState) (hW : 0 < W) :
    zoneLadder W H (W / 3) y v
      = { gestureText := "Hand detected - no action"
          currentAction := .noAction
          videoPlayer := v } := by
  have h1 : ¬ W / 3 > W * 2 / 3 := by
    intro h
    linarith
  simp [zoneLadder, h1]

theorem zoneLadder_videoPlayer (W H x y : ℚ) (v : PlaybackState) :
    (zoneLadder W H x y v).videoPlayer = sideEffect (zoneLadder W H x y v).currentAction v := by
  unfold zoneLadder
  split_ifs <;> simp_all [sideEffect]

theorem detectionPass_videoPlayer (W H : ℚ) (predictions : List Detection)
    (v : PlaybackState) :
    (detectionPass W H predictions v).videoPlayer
      = sideEffect (detectionPass W H predictions v).currentAction v := by
  cases predictions with
  | nil => simp [detectionPass, sideEffect]
  | cons hand rest =>
    cases hf : hasFace (hand :: rest) with
    | true => simp [detectionPass, hf, sideEffect]
    | false =>
      rw [detectionPass_cons W H hand rest v hf]
      exact zoneLadder_videoPlayer W H _ _ v

theorem sideEffect_inBounds (a : Action) (v : PlaybackState) (hv : v.inBounds) :
    (sideEffect a v).inBounds := by
  obtain ⟨h0, h1, h2, h3⟩ := hv
  have hd : 0 ≤ v.duration := le_trans h2 h3
  cases a
  · refine ⟨le_min (by norm_num) ?_, min_le_left _ _, h2, h3⟩
    have : (0 : ℚ) ≤ 0.05 := by norm_num
    linarith
  · refine ⟨le_max_left _ _, max_le (by norm_num) ?_, h2, h3⟩
    have : (0 : ℚ) ≤ 0.05 := by norm_num
    linarith
  · simp only [sideEffect]
    split_ifs
    · exact ⟨h0, h1, h2, h3⟩
    · exact ⟨h0, h1, h2, h3⟩
  · simp only [sideEffect]
    split_ifs
    · exact ⟨h0, h1, h2, h3⟩
    · exact ⟨h0, h1, h2, h3⟩
  · refine ⟨h0, h1, le_max_left _ _, max_le hd ?_⟩
    show v.currentTime - 5 ≤ v.duration
    linarith
  · refine ⟨h0, h1, le_min hd ?_, min_le_left _ _⟩
    linarith
  · exact ⟨h0, h1, h2, h3⟩

theorem sideEffect_play_twice (v : PlaybackState) :
    sideEffect .play (sideEffect .play v) = sideEffect .play v := by
  cases hp : v.paused <;> simp [sideEffect, PlaybackState.play, hp]

theorem sideEffect_pause_twice (v : PlaybackState) :
    sideEffect .pause (sideEffect .pause v) = sideEffect .pause v := by
  cases hp : v.paused <;> simp [sideEffect, PlaybackState.pause, hp]

theorem zoneLadder_zone (W H x y : ℚ) (v : PlaybackState) (c r : Third)
    (hW : 0 < W) (hz : inZone W H c r x y) :
    (zoneLadder W H x y v).currentAction = zoneTable c r := by
  obtain ⟨hc, hr⟩ := hz
  cases c
  · exact zoneLadder_rewind W H x y v hW.le hc.2
  · obtain ⟨c1, c2⟩ := hc
    have n1 : ¬ x > W * 2 / 3 := by
      intro h
      linarith
    have n2 : ¬ x < W / 3 := by
      intro h
      linarith
    cases r
    · obtain ⟨_, r2⟩ := hr
      simp [zoneLadder, zoneTable, n1, c1, c2, r2]
    · obtain ⟨r1, r2⟩ := hr
      have m1 : ¬ y < H / 3 := by
        intro h
        linarith
      have m2 : ¬ y > H * 2 / 3 := by
        intro h
        linarith
      simp [zoneLadder, zoneTable, n1, n2, m1, m2]
    · obtain ⟨r1, _⟩ := hr
      have m1 : ¬ y < H / 3 := by
        intro h
        linarith
      simp [zoneLadder, zoneTable, n1, c1, c2, m1, r1]
  · obtain ⟨c1, _⟩ := hc
    have n2 : ¬ x < W / 3 := by
      intro h
      linarith
    have n3 : ¬ x < W * 2 / 3 := by
      intro h
      linarith
    cases r
    · obtain ⟨_, r2⟩ := hr
      simp [zoneLadder, zoneTable, c1, r2]
    · obtain ⟨r1, r2⟩ := hr
      have m1 : ¬ y < H / 3 := by
        intro h
        linarith
      have m2 : ¬ y > H * 2 / 3 := by
        intro h
        linarith
      simp [zoneLadder, zoneTable, c1, n2, n3, m1, m2, r1, r2]
    · obtain ⟨r1, _⟩ := hr
      have m1 : ¬ y < H / 3 := by
        intro h
        linarith
      simp [zoneLadder, zoneTable, c1, m1, r1]

theorem inThird_nonempty (L : ℚ) (hL : 0 < L) (t : Third) : ∃ v, inThird L t v := by
  cases t
  · exact ⟨L / 6, by constructor <;> linarith⟩
  · exact ⟨L / 2, by constructor <;> linarith⟩
  · exact ⟨L * 5 / 6, by constructor <;> linarith⟩

theorem firstMatch_ladderBranches (W H x y : ℚ) (v : PlaybackState) :
    firstMatch W H x y ladderBranches = (zoneLadder W H x y v).currentAction := by
  simp only [ladderBranches, firstMatch, branchVolUp, branchVolDown, branchPlay, branchPause,
    branchRewind, branchRight, zoneLadder, decide_eq_true_eq]
  split_ifs <;> rfl

theorem runDetection_pending (s : Driver) : (runDetection s).pending = s.pending + 1 := by
  unfold runDetection Driver.pending
  split_ifs
  · show s.scheduled + 1 + s.detecting = s.scheduled + s.detecting + 1
    omega
  · rfl

theorem runDetection_flags (s : Driver) :
    (runDetection s).hasRequestedCamera = s.hasRequestedCamera
    ∧ (runDetection s).cameraPending = s.cameraPending
    ∧ (runDetection s).loadPending = s.loadPending
    ∧ (runDetection s).model = s.model
    ∧ (runDetection s).isVideo = s.isVideo := by
  unfold runDetection
  split_ifs <;> exact ⟨rfl, rfl, rfl, rfl, rfl⟩

theorem step_oneLoop (s : Driver) (e : Event) (h : s.oneLoop) : (step s e).oneLoop := by
  obtain ⟨h1, h2, h3, h4⟩ := h
  cases e
  · -- click
    simp only [step]
    split_ifs with hq
    · exact ⟨h1, h2, h3, h4⟩
    · have hp : s.pending = 0 := h2 (by simpa using hq)
      unfold startVideo
      split_ifs
      · exact ⟨h1, fun h => by simp at h, fun h => ⟨rfl, hp⟩, h4⟩
      · exact ⟨h1, fun h => by simp at h, fun _ => ⟨rfl, hp⟩, h4⟩
  · -- cameraGranted
    simp only [step]
    split_ifs with hc
    · obtain ⟨hq, hp⟩ := h3 hc
      obtain ⟨f1, f2, f3, -, -⟩ :=
        runDetection_flags { s with cameraPending := false, isVideo := true }
      have hn := runDetection_pending { s with cameraPending := false, isVideo := true }
      have hp' : ({ s with cameraPending := false, isVideo := true } : Driver).pending = 0 := hp
      refine ⟨f3.trans h1, ?_, ?_, ?_⟩
      · intro h
        rw [f1] at h
        exact absurd (hq.symm.trans h) (by decide)
      · intro h
        rw [f2] at h
        exact absurd h Bool.false_ne_true
      · rw [hn, hp']
    · exact ⟨h1, h2, h3, h4⟩
  · -- cameraFailed
    simp only [step]
    split_ifs with hc
    · obtain ⟨hq, hp⟩ := h3 hc
      exact ⟨h1, h2, fun h => absurd h Bool.false_ne_true, h4⟩
    · exact ⟨h1, h2, h3, h4⟩
  · -- modelLoaded
    simp only [step]
    rw [if_neg (by simp [h1])]
    exact ⟨h1, h2, h3, h4⟩
  · -- modelFailed
    simp only [step]
    rw [if_neg (by simp [h1])]
    exact ⟨h1, h2, h3, h4⟩
  · -- tick
    simp only [step]
    split_ifs with ht
    · obtain ⟨f1, f2, f3, -, -⟩ := runDetection_flags { s with scheduled := s.scheduled - 1 }
      have hn := runDetection_pending { s with scheduled := s.scheduled - 1 }
      have hp' : ({ s with scheduled := s.scheduled - 1 } : Driver).pending + 1 = s.pending := by
        show s.scheduled - 1 + s.detecting + 1 = s.scheduled + s.detecting
        omega
      have hpos : s.pending ≠ 0 := by
        unfold Driver.pending
        omega
      refine ⟨f3.trans h1, ?_, ?_, ?_⟩
      · intro h
        rw [f1] at h
        exact absurd (h2 h) hpos
      · intro h
        rw [f2] at h
        exact absurd (h3 h).2 hpos
      · rw [hn, hp']
        exact h4
    · exact ⟨h1, h2, h3, h4⟩
  · -- detected
    simp only [step]
    have hpos : 0 < s.detecting → s.pending ≠ 0 := by
      intro h
      unfold Driver.pending
      omega
    have h4' : s.scheduled + s.detecting ≤ 1 := h4
    split_ifs with hd hv
    · refine ⟨h1, fun h => absurd (h2 h) (hpos hd), fun h => absurd (h3 h).2 (hpos hd), ?_⟩
      show s.scheduled + 1 + (s.detecting - 1) ≤ 1
      omega
    · refine ⟨h1, fun h => absurd (h2 h) (hpos hd), fun h => absurd (h3 h).2 (hpos hd), ?_⟩
      show s.scheduled + (s.detecting - 1) ≤ 1
      omega
    · exact ⟨h1, h2, h3, h4⟩

theorem step_twoLoops (s : Driver) (e : Event) (h : s.twoLoops) : (step s e).twoLoops := by
  obtain ⟨h1, h2, h3, h4, h5, h6⟩ := h
  cases e
  · simp only [step]
    rw [if_pos h1]
    exact ⟨h1, h2, h3, h4, h5, h6⟩
  · simp only [step]
    rw [if_neg (by simp [h4])]
    exact ⟨h1, h2, h3, h4, h5, h6⟩
  · simp only [step]
    rw [if_neg (by simp [h4])]
    exact ⟨h1, h2, h3, h4, h5, h6⟩
  · simp only [step]
    rw [if_neg (by simp [h5])]
    exact ⟨h1, h2, h3, h4, h5, h6⟩
  · simp only [step]
    rw [if_neg (by simp [h5])]
    exact ⟨h1, h2, h3, h4, h5, h6⟩
  · simp only [step]
    split_ifs with ht
    · obtain ⟨f1, f2, f3, f4, f5⟩ := runDetection_flags { s with scheduled := s.scheduled - 1 }
      have hn := runDetection_pending { s with scheduled := s.scheduled - 1 }
      have hp' : ({ s with scheduled := s.scheduled - 1 } : Driver).pending + 1 = s.pending := by
        show s.scheduled - 1 + s.detecting + 1 = s.scheduled + s.detecting
        omega
      exact ⟨f1.trans h1, f4.trans h2, f5.trans h3, f2.trans h4, f3.trans h5,
        by rw [hn, hp']; exact h6⟩
    · exact ⟨h1, h2, h3, h4, h5, h6⟩
  · simp only [step]
    have h6' : s.scheduled + s.detecting = 2 := h6
    rw [if_pos h3]
    split_ifs with hd
    · refine ⟨h1, h2, h3, h4, h5, ?_⟩
      show s.scheduled + 1 + (s.detecting - 1) = 2
      omega
    · exact ⟨h1, h2, h3, h4, h5, h6⟩

theorem run_twoLoops (events : List Event) (s : Driver) (h : s.twoLoops) :
    (run s events).twoLoops := by
  induction events generalizing s with
  | nil => exact h
  | cons e es ih => exact ih (step s e) (step_twoLoops s e h)

theorem run_oneLoop (events : List Event) (s : Driver) (h : s.oneLoop) :
    (run s events).oneLoop := by
  induction events generalizing s with
  | nil => exact h
  | cons e es ih => exact ih (step s e) (step_oneLoop s e h)

/-- When the model has finished loading before the first click, at most one
pass is ever pending, whatever happens afterwards. -/
theorem model_first_single_loop (events : List Event) :
    (run pageLoad (Event.modelLoaded :: events)).pending ≤ 1 :=
  (run_oneLoop events (step pageLoad Event.modelLoaded)
    (by unfold Driver.oneLoop; decide)).2.2.2

/-! ## The claims -/

/-- C1: for every non-empty prediction list without a face label, every
canvas size and every anchor of the first prediction, the action chosen by the
ladder of `runDetection` is the first matching rule of the seven-rule ladder
of the specification; on a 300 by 300 canvas the anchors (250,10), (150,10)
and (10,150) give VolumeUp, Play and Rewind. -/
theorem ladder_refines_spec :
    (∀ (W H : ℚ) (hand : Detection) (rest : List Detection) (v : PlaybackState),
      hasFace (hand :: rest) = false →
      (detectionPass W H (hand :: rest) v).currentAction
        = specLadder W H hand.bbox.x hand.bbox.y)
    ∧ (∀ v, (detectionPass 300 300 [labelled "open" 250 10 50 50] v).currentAction
        = Action.volUp)
    ∧ (∀ v, (detectionPass 300 300 [labelled "open" 150 10 50 50] v).currentAction
        = Action.play)
    ∧ (∀ v, (detectionPass 300 300 [labelled "open" 10 150 50 50] v).currentAction
        = Action.rewind) := by
  have main : ∀ (W H : ℚ) (hand : Detection) (rest : List Detection) (v : PlaybackState),
      hasFace (hand :: rest) = false →
      (detectionPass W H (hand :: rest) v).currentAction
        = specLadder W H hand.bbox.x hand.bbox.y := by
    intro W H hand rest v hf
    rw [detectionPass_cons W H hand rest v hf]
    exact zoneLadder_action_eq_spec W H _ _ v
  refine ⟨main, ?_, ?_, ?_⟩
  · intro v
    rw [main 300 300 _ [] v (hasFace_open _ _ _ _)]
    simp only [specLadder, labelled]
    norm_num
  · intro v
    rw [main 300 300 _ [] v (hasFace_open _ _ _ _)]
    simp only [specLadder, labelled]
    norm_num
  · intro v
    rw [main 300 300 _ [] v (hasFace_open _ _ _ _)]
    simp only [specLadder, labelled]
    norm_num

/-- Witness for C1: the general statement applied to a two-element list whose
first box is anchored at (250, 10) on a 300 by 300 canvas. -/
theorem ladder_refines_spec_witness :
    hasFace [labelled "open" 250 10 50 50, labelled "closed" 10 150 20 20] = false
    ∧ (detectionPass 300 300
        [labelled "open" 250 10 50 50, labelled "closed" 10 150 20 20]
        demoPlayer).currentAction
      = specLadder 300 300 (labelled "open" 250 10 50 50).bbox.x
          (labelled "open" 250 10 50 50).bbox.y :=
  ⟨by decide,
   ladder_refines_spec.1 300 300 (labelled "open" 250 10 50 50)
     [labelled "closed" 10 150 20 20] demoPlayer (by decide)⟩

/-- C2: on a canvas of width `W ≥ 0` and any height, a non-empty prediction
list without a face label whose first box has `x < W / 3` is classified
Rewind, whatever `y` is. -/
theorem left_column_rewinds (W H : ℚ) (hand : Detection) (rest : List Detection)
    (v : PlaybackState) (hW : 0 ≤ W) (hf : hasFace (hand :: rest) = false)
    (hx : hand.bbox.x < W / 3) :
    (detectionPass W H (hand :: rest) v).currentAction = Action.rewind := by
  rw [detectionPass_cons W H hand rest v hf]
  exact zoneLadder_rewind W H _ _ v hW hx

/-- Witness for C2: W = H = 300 and the box (10, 150, 50, 50). -/
theorem left_column_rewinds_witness :
    (0 : ℚ) ≤ 300 ∧ hasFace [labelled "open" 10 150 50 50] = false
    ∧ (labelled "open" 10 150 50 50).bbox.x < (300 : ℚ) / 3
    ∧ (detectionPass 300 300 [labelled "open" 10 150 50 50] demoPlayer).currentAction
        = Action.rewind :=
  ⟨by norm_num, by decide, by simp only [labelled]; norm_num,
   left_column_rewinds 300 300 (labelled "open" 10 150 50 50) [] demoPlayer
     (by norm_num) (by decide) (by simp only [labelled]; norm_num)⟩

/-- C3 (as the code has it): when some prediction of the list, at any
position, has a label that contains `face` in any letter case, or has an
absent or empty label and a class that does, the pass performs no action and
leaves the playback element exactly as it was, whatever the boxes are. -/
theorem face_suppresses (W H : ℚ) (predictions : List Detection) (v : PlaybackState)
    (p : Detection) (hp : p ∈ predictions)
    (h : mentionsFace p.label ∨ (p.label.truthy = false ∧ mentionsFace p.cls)) :
    (detectionPass W H predictions v).currentAction = Action.noAction
    ∧ (detectionPass W H predictions v).videoPlayer = v := by
  have hl : includes (lbl p) "face".data = true := by
    rcases h with h | ⟨h0, h⟩
    · exact lbl_of_mentionsFace_label p h
    · exact lbl_of_mentionsFace_cls p h0 h
  have hf : hasFace predictions = true := hasFace_of_mem predictions p hp hl
  cases predictions with
  | nil => simp at hp
  | cons hand rest => simp [detectionPass, hf]

/-- Witness for C3: a hand box in the VolumeUp corner followed by a
prediction labelled `My FACE`. -/
theorem face_suppresses_witness :
    labelled "My FACE" 0 0 40 40
      ∈ [labelled "open" 250 10 50 50, labelled "My FACE" 0 0 40 40]
    ∧ mentionsFace (labelled "My FACE" 0 0 40 40).label
    ∧ (detectionPass 300 300
        [labelled "open" 250 10 50 50, labelled "My FACE" 0 0 40 40]
        demoPlayer).currentAction = Action.noAction
    ∧ (detectionPass 300 300
        [labelled "open" 250 10 50 50, labelled "My FACE" 0 0 40 40]
        demoPlayer).videoPlayer = demoPlayer :=
  have hm : mentionsFace (labelled "My FACE" 0 0 40 40).label :=
    ⟨"My ".data, "FACE".data, [], by decide, by decide⟩
  have hin : labelled "My FACE" 0 0 40 40
      ∈ [labelled "open" 250 10 50 50, labelled "My FACE" 0 0 40 40] := by
    simp
  ⟨hin, hm,
   face_suppresses 300 300 _ demoPlayer (labelled "My FACE" 0 0 40 40) hin (Or.inl hm)⟩

/-- C3 as stated fails: a single prediction with label `open` and class
`face` at (250, 10) on a 300 by 300 canvas has a class that contains `face`,
yet `hasFace` is false, the pass performs Volume Up and the volume of the
playback element goes from 1/2 to 11/20. -/
theorem class_face_not_suppressed :
    openWithFaceClass ∈ [openWithFaceClass]
    ∧ mentionsFace openWithFaceClass.cls
    ∧ hasFace [openWithFaceClass] = false
    ∧ (detectionPass 300 300 [openWithFaceClass] demoPlayer).currentAction = Action.volUp
    ∧ (detectionPass 300 300 [openWithFaceClass] demoPlayer).videoPlayer.volume = 11 / 20
    ∧ (detectionPass 300 300 [openWithFaceClass] demoPlayer).videoPlayer ≠ demoPlayer := by
  have hf : hasFace [openWithFaceClass] = false := by decide
  have hv : (detectionPass 300 300 [openWithFaceClass] demoPlayer).videoPlayer.volume
      = 11 / 20 := by
    rw [detectionPass_cons 300 300 _ [] demoPlayer hf]
    simp only [openWithFaceClass, zoneLadder, demoPlayer]
    norm_num
  refine ⟨by simp, ⟨[], "face".data, [], by decide, by decide⟩, hf, ?_, hv, ?_⟩
  · rw [detectionPass_cons 300 300 _ [] demoPlayer hf, zoneLadder_action_eq_spec]
    simp only [openWithFaceClass, specLadder]
    norm_num
  · intro h
    rw [h] at hv
    simp only [demoPlayer] at hv
    norm_num at hv

/-- C4 (as the code has it): on a canvas of width `W > 0` with no face
present, a first box whose `x` is exactly `W / 3` is not classified Rewind and
matches no branch at all: the pass performs no action for every `y`. -/
theorem boundary_is_no_action (W H : ℚ) (hand : Detection) (rest : List Detection)
    (v : PlaybackState) (hW : 0 < W) (hf : hasFace (hand :: rest) = false)
    (hx : hand.bbox.x = W / 3) :
    (detectionPass W H (hand :: rest) v).currentAction = Action.noAction
    ∧ (detectionPass W H (hand :: rest) v).videoPlayer = v := by
  rw [detectionPass_cons W H hand rest v hf, hx, zoneLadder_boundary W H _ v hW]
  exact ⟨rfl, rfl⟩

/-- Witness for C4: W = H = 300 and the box (100, 10, 50, 50). -/
theorem boundary_is_no_action_witness :
    (0 : ℚ) < 300 ∧ hasFace [labelled "open" 100 10 50 50] = false
    ∧ (labelled "open" 100 10 50 50).bbox.x = (300 : ℚ) / 3
    ∧ (detectionPass 300 300 [labelled "open" 100 10 50 50] demoPlayer).currentAction
        = Action.noAction
    ∧ (detectionPass 300 300 [labelled "open" 100 10 50 50] demoPlayer).videoPlayer
        = demoPlayer :=
  ⟨by norm_num, by decide, by simp only [labelled]; norm_num,
   boundary_is_no_action 300 300 (labelled "open" 100 10 50 50) [] demoPlayer
     (by norm_num) (by decide) (by simp only [labelled]; norm_num)⟩

/-- C4 as stated fails: on a 300 by 300 canvas the box (100, 10, 50, 50) has
`x = W / 3` and `y < H / 3`, and the pass gives no action, not Play; the box
(100, 250, 50, 50) has `y > 2H / 3` and the pass gives no action, not Pause. -/
theorem boundary_not_center_column :
    (100 : ℚ) = 300 / 3 ∧ (10 : ℚ) < 300 / 3 ∧ (250 : ℚ) > 2 * 300 / 3
    ∧ (detectionPass 300 300 [labelled "open" 100 10 50 50] demoPlayer).currentAction
        ≠ Action.play
    ∧ (detectionPass 300 300 [labelled "open" 100 250 50 50] demoPlayer).currentAction
        ≠ Action.pause := by
  have e : (100 : ℚ) = 300 / 3 := by norm_num
  refine ⟨e, by norm_num, by norm_num, ?_, ?_⟩
  · rw [detectionPass_cons 300 300 _ [] demoPlayer (hasFace_open _ _ _ _)]
    simp only [labelled]
    rw [e, zoneLadder_boundary 300 300 10 demoPlayer (by norm_num)]
    decide
  · rw [detectionPass_cons 300 300 _ [] demoPlayer (hasFace_open _ _ _ _)]
    simp only [labelled]
    rw [e, zoneLadder_boundary 300 300 250 demoPlayer (by norm_num)]
    decide

/-- C8: two non-empty prediction lists without a face label whose first boxes
have the same top-left corner get the same action, whatever the sizes of the
first boxes and whatever follows them; on the same playback element the whole
outcome of the pass is the same. -/
theorem only_first_anchor_matters (W H : ℚ) (hand₁ hand₂ : Detection)
    (rest₁ rest₂ : List Detection) (v₁ v₂ : PlaybackState)
    (hf₁ : hasFace (hand₁ :: rest₁) = false) (hf₂ : hasFace (hand₂ :: rest₂) = false)
    (hx : hand₁.bbox.x = hand₂.bbox.x) (hy : hand₁.bbox.y = hand₂.bbox.y) :
    (detectionPass W H (hand₁ :: rest₁) v₁).currentAction
      = (detectionPass W H (hand₂ :: rest₂) v₂).currentAction
    ∧ detectionPass W H (hand₁ :: rest₁) v₁ = detectionPass W H (hand₂ :: rest₂) v₁ := by
  rw [detectionPass_cons W H hand₁ rest₁ v₁ hf₁, detectionPass_cons W H hand₂ rest₂ v₂ hf₂,
    detectionPass_cons W H hand₂ rest₂ v₁ hf₂, hx, hy]
  refine ⟨?_, rfl⟩
  rw [zoneLadder_action_eq_spec, zoneLadder_action_eq_spec]

/-- Witness for C8: same anchor (150, 10), different box sizes, labels and
tails, different playback elements. -/
theorem only_first_anchor_matters_witness :
    (detectionPass 300 300 [labelled "open" 150 10 50 50] demoPlayer).currentAction
      = (detectionPass 300 300
          [labelled "closed" 150 10 5 90, labelled "point" 10 150 20 20]
          demoPlayer.play).currentAction
    ∧ detectionPass 300 300 [labelled "open" 150 10 50 50] demoPlayer
      = detectionPass 300 300
          [labelled "closed" 150 10 5 90, labelled "point" 10 150 20 20] demoPlayer :=
  only_first_anchor_matters 300 300 (labelled "open" 150 10 50 50)
    (labelled "closed" 150 10 5 90) [] [labelled "point" 10 150 20 20]
    demoPlayer demoPlayer.play (by decide) (by decide) rfl rfl

/-- C7: the bounds `0 ≤ volume ≤ 1` and `0 ≤ currentTime ≤ duration` are kept
by the side effect of every action, and so by every pass; VolumeUp sets the
volume to `min 1 (volume + 0.05)`, VolumeDown to `max 0 (volume - 0.05)`,
Rewind sets the position to `max 0 (currentTime - 5)` and Forward to
`min duration (currentTime + 5)`; from volume 0.98 VolumeUp gives exactly 1. -/
theorem clamping_invariant :
    (∀ (a : Action) (v : PlaybackState), v.inBounds → (sideEffect a v).inBounds)
    ∧ (∀ (W H : ℚ) (predictions : List Detection) (v : PlaybackState), v.inBounds →
        (detectionPass W H predictions v).videoPlayer.inBounds)
    ∧ (∀ (W H : ℚ) (predictions : List Detection) (v : PlaybackState),
        (detectionPass W H predictions v).videoPlayer
          = sideEffect (detectionPass W H predictions v).currentAction v)
    ∧ (∀ v : PlaybackState,
        (sideEffect .volUp v).volume = min 1 (v.volume + 0.05)
        ∧ (sideEffect .volDown v).volume = max 0 (v.volume - 0.05)
        ∧ (sideEffect .rewind v).currentTime = max 0 (v.currentTime - 5)
        ∧ (sideEffect .forward v).currentTime = min v.duration (v.currentTime + 5))
    ∧ (∀ v : PlaybackState, v.volume = 0.98 →
        (detectionPass 300 300 [labelled "open" 250 10 50 50] v).videoPlayer.volume = 1) := by
  refine ⟨sideEffect_inBounds, ?_, detectionPass_videoPlayer, ?_, ?_⟩
  · intro W H predictions v hv
    rw [detectionPass_videoPlayer]
    exact sideEffect_inBounds _ v hv
  · intro v
    exact ⟨rfl, rfl, rfl, rfl⟩
  · intro v hv
    rw [detectionPass_cons 300 300 _ [] v (hasFace_open _ _ _ _)]
    simp only [labelled, zoneLadder, hv]
    norm_num

/-- Witness for C7: VolumeUp applied at volume 49/50 on a playback element
within its bounds. -/
theorem clamping_invariant_witness :
    ({ demoPlayer with volume := 49 / 50 } : PlaybackState).inBounds
    ∧ (sideEffect .volUp { demoPlayer with volume := 49 / 50 }).inBounds :=
  have hb : ({ demoPlayer with volume := 49 / 50 } : PlaybackState).inBounds := by
    simp only [PlaybackState.inBounds, demoPlayer]
    norm_num
  ⟨hb, clamping_invariant.1 .volUp _ hb⟩

/-- C9: a pass classified Play calls `play()` exactly when the element is
paused and leaves the element as it is when it is already playing; a pass
classified Pause calls `pause()` exactly when the element is playing and
leaves it as it is when it is already paused; neither changes volume or
currentTime; two consecutive passes classified Play (or Pause) leave the
state of the first; the boxes (150, 10) and (150, 250) on a 300 by 300 canvas
are classified Play and Pause. -/
theorem play_pause_idempotent :
    (∀ (W H : ℚ) (ps : List Detection) (v : PlaybackState),
        (detectionPass W H ps v).currentAction = Action.play →
        (v.paused = true → (detectionPass W H ps v).videoPlayer = v.play)
        ∧ (v.paused = false → (detectionPass W H ps v).videoPlayer = v)
        ∧ (detectionPass W H ps v).videoPlayer.paused = false
        ∧ (detectionPass W H ps v).videoPlayer.volume = v.volume
        ∧ (detectionPass W H ps v).videoPlayer.currentTime = v.currentTime)
    ∧ (∀ (W H : ℚ) (ps : List Detection) (v : PlaybackState),
        (detectionPass W H ps v).currentAction = Action.pause →
        (v.paused = false → (detectionPass W H ps v).videoPlayer = v.pause)
        ∧ (v.paused = true → (detectionPass W H ps v).videoPlayer = v)
        ∧ (detectionPass W H ps v).videoPlayer.paused = true
        ∧ (detectionPass W H ps v).videoPlayer.volume = v.volume
        ∧ (detectionPass W H ps v).videoPlayer.currentTime = v.currentTime)
    ∧ (∀ (W H W' H' : ℚ) (ps ps' : List Detection) (v : PlaybackState) (a : Action),
        a = .play ∨ a = .pause →
        (detectionPass W H ps v).currentAction = a →
        (detectionPass W' H' ps' (detectionPass W H ps v).videoPlayer).currentAction = a →
        (detectionPass W' H' ps' (detectionPass W H ps v).videoPlayer).videoPlayer
          = (detectionPass W H ps v).videoPlayer)
    ∧ (∀ v : PlaybackState,
        (detectionPass 300 300 [labelled "open" 150 10 50 50] v).currentAction = Action.play
        ∧ (detectionPass 300 300 [labelled "open" 150 250 50 50] v).currentAction
            = Action.pause)
    ∧ (detectionPass 300 300 [labelled "open" 150 10 50 50] demoPlayer).videoPlayer
        = { demoPlayer with paused := false, calls := [MediaCall.play] }
    ∧ (detectionPass 300 300 [labelled "open" 150 250 50 50] demoPlayer.play).videoPlayer
        = { demoPlayer with paused := true, calls := [MediaCall.pause, MediaCall.play] } := by
  have hplay : ∀ v : PlaybackState,
      (detectionPass 300 300 [labelled "open" 150 10 50 50] v).currentAction
        = Action.play := by
    intro v
    rw [detectionPass_cons 300 300 _ [] v (hasFace_open _ _ _ _), zoneLadder_action_eq_spec]
    simp only [specLadder, labelled]
    norm_num
  have hpause : ∀ v : PlaybackState,
      (detectionPass 300 300 [labelled "open" 150 250 50 50] v).currentAction
        = Action.pause := by
    intro v
    rw [detectionPass_cons 300 300 _ [] v (hasFace_open _ _ _ _), zoneLadder_action_eq_spec]
    simp only [specLadder, labelled]
    norm_num
  refine ⟨?_, ?_, ?_, fun v => ⟨hplay v, hpause v⟩, ?_, ?_⟩
  · intro W H ps v h
    rw [detectionPass_videoPlayer W H ps v, h]
    cases hp : v.paused <;> simp [sideEffect, PlaybackState.play, hp]
  · intro W H ps v h
    rw [detectionPass_videoPlayer W H ps v, h]
    cases hp : v.paused <;> simp [sideEffect, PlaybackState.pause, hp]
  · intro W H W' H' ps ps' v a ha h1 h2
    rw [detectionPass_videoPlayer W' H' ps', h2, detectionPass_videoPlayer W H ps, h1]
    rcases ha with rfl | rfl
    · exact sideEffect_play_twice v
    · exact sideEffect_pause_twice v
  · rw [detectionPass_videoPlayer, hplay demoPlayer]
    rfl
  · rw [detectionPass_videoPlayer, hpause demoPlayer.play]
    rfl

/-- Witness for C9: a pass with a box in the Play zone on a paused element
calls `play()`. -/
theorem play_pause_idempotent_witness :
    (detectionPass 300 300 [labelled "open" 150 10 50 50] demoPlayer).currentAction
      = Action.play
    ∧ demoPlayer.paused = true
    ∧ (detectionPass 300 300 [labelled "open" 150 10 50 50] demoPlayer).videoPlayer
      = demoPlayer.play :=
  have h : (detectionPass 300 300 [labelled "open" 150 10 50 50] demoPlayer).currentAction
      = Action.play := by
    rw [detectionPass_cons 300 300 _ [] demoPlayer (hasFace_open _ _ _ _),
      zoneLadder_action_eq_spec]
    simp only [specLadder, labelled]
    norm_num
  ⟨h, rfl, (play_pause_idempotent.1 300 300 _ demoPlayer h).1 rfl⟩

/-- C5 (as the code has it): on every canvas with W > 0 and H > 0 each of
the nine open zones is non-empty and the action is constant on it; eight
zones map to an action (the three zones of the left column all to Rewind) and
only the center zone maps to no action. -/
theorem zone_coverage :
    (∀ (W H : ℚ) (hand : Detection) (rest : List Detection) (v : PlaybackState)
        (c r : Third), 0 < W → 0 < H → hasFace (hand :: rest) = false →
        inZone W H c r hand.bbox.x hand.bbox.y →
        (detectionPass W H (hand :: rest) v).currentAction = zoneTable c r)
    ∧ (∀ (W H : ℚ) (c r : Third), 0 < W → 0 < H → ∃ x y, inZone W H c r x y)
    ∧ mappedZones zoneTable = 8
    ∧ unmappedZones zoneTable = 1
    ∧ (∀ c r, zoneTable c r = Action.noAction ↔ (c = Third.middle ∧ r = Third.middle)) := by
  refine ⟨?_, ?_, by decide, by decide, ?_⟩
  · intro W H hand rest v c r hW hH hf hz
    rw [detectionPass_cons W H hand rest v hf]
    have _ := hH
    exact zoneLadder_zone W H _ _ v c r hW hz
  · intro W H c r hW hH
    obtain ⟨x, hx⟩ := inThird_nonempty W hW c
    obtain ⟨y, hy⟩ := inThird_nonempty H hH r
    exact ⟨x, y, hx, hy⟩
  · intro c r
    cases c <;> cases r <;> simp [zoneTable]

/-- Witness for C5: the box (50, 50, 50, 50) lies in the upper left zone of a
300 by 300 canvas and is classified Rewind. -/
theorem zone_coverage_witness :
    inZone 300 300 Third.low Third.low (labelled "open" 50 50 50 50).bbox.x
      (labelled "open" 50 50 50 50).bbox.y
    ∧ (detectionPass 300 300 [labelled "open" 50 50 50 50] demoPlayer).currentAction
        = Action.rewind :=
  have hz : inZone 300 300 Third.low Third.low (labelled "open" 50 50 50 50).bbox.x
      (labelled "open" 50 50 50 50).bbox.y := by
    simp only [inZone, inThird, labelled]
    norm_num
  ⟨hz, zone_coverage.1 300 300 (labelled "open" 50 50 50 50) [] demoPlayer Third.low
    Third.low (by norm_num) (by norm_num) (by decide) hz⟩

/-- C5 as stated fails: on a 300 by 300 canvas no assignment of actions to the
nine zones that agrees with the pass on every zone has six mapped zones or
three unmapped ones. -/
theorem six_of_nine_fails :
    ¬ ∃ f : Third → Third → Action,
      (∀ (c r : Third) (x y : ℚ), inZone 300 300 c r x y →
        (detectionPass 300 300 [labelled "open" x y 50 50] demoPlayer).currentAction = f c r)
      ∧ (mappedZones f = 6 ∨ unmappedZones f = 3) := by
  rintro ⟨f, hf, hcount⟩
  have key : ∀ (c r : Third), f c r = zoneTable c r := by
    intro c r
    obtain ⟨x, hx⟩ := inThird_nonempty 300 (by norm_num) c
    obtain ⟨y, hy⟩ := inThird_nonempty 300 (by norm_num) r
    rw [← hf c r x y ⟨hx, hy⟩,
      detectionPass_cons 300 300 _ [] demoPlayer (hasFace_open _ _ _ _)]
    exact zoneLadder_zone 300 300 _ _ demoPlayer c r (by norm_num) ⟨hx, hy⟩
  have e : f = zoneTable := by
    funext c r
    exact key c r
  rw [e] at hcount
  revert hcount
  decide

/-- C6: the branches of the ladder are not mutually exclusive and their order
decides the result: the ladder is first-match over its six branches, and on
the 300 by 300 canvas at anchor (250, 10) the guards of two different
branches (the first and the sixth) hold together, while a reordering of the
same branches gives another action there than the pass does. -/
theorem branch_guards_overlap :
    (∀ (W H x y : ℚ) (v : PlaybackState),
        firstMatch W H x y ladderBranches = (zoneLadder W H x y v).currentAction)
    ∧ (∃ (W H x y : ℚ), 0 < W ∧ 0 < H
        ∧ (∃ (i j : Nat) (bi bj : Branch), i < j
            ∧ ladderBranches[i]? = some bi ∧ ladderBranches[j]? = some bj
            ∧ bi.guard W H x y = true ∧ bj.guard W H x y = true)
        ∧ (∃ reordered : List Branch, reordered.Perm ladderBranches
            ∧ ∀ v : PlaybackState,
                firstMatch W H x y reordered
                  ≠ (detectionPass W H [labelled "open" x y 50 50] v).currentAction))
    ∧ (∀ v : PlaybackState,
        (detectionPass 300 300 [labelled "open" 250 10 50 50] v).currentAction = Action.volUp)
    ∧ firstMatch 300 300 250 10 rightFirstBranches = Action.noAction := by
  have hperm : rightFirstBranches.Perm ladderBranches := by
    unfold rightFirstBranches ladderBranches
    exact (List.perm_append_comm :
      ([branchRight] ++ [branchVolUp, branchVolDown, branchPlay, branchPause, branchRewind]).Perm
        ([branchVolUp, branchVolDown, branchPlay, branchPause, branchRewind] ++ [branchRight]))
  have hre : firstMatch 300 300 250 10 rightFirstBranches = Action.noAction := by
    simp only [rightFirstBranches, firstMatch, branchRight, decide_eq_true_eq]
    norm_num
  have hup : ∀ v : PlaybackState, (zoneLadder 300 300 250 10 v).currentAction
      = Action.volUp := by
    intro v
    rw [zoneLadder_action_eq_spec]
    simp only [specLadder]
    norm_num
  refine ⟨firstMatch_ladderBranches, ⟨300, 300, 250, 10, by norm_num, by norm_num, ?_, ?_⟩,
    ?_, hre⟩
  · refine ⟨0, 5, branchVolUp, branchRight, by norm_num, rfl, rfl, ?_, ?_⟩
    · simp only [branchVolUp, decide_eq_true_eq]
      norm_num
    · simp only [branchRight, decide_eq_true_eq]
      norm_num
  · refine ⟨rightFirstBranches, hperm, ?_⟩
    intro v
    rw [detectionPass_cons 300 300 _ [] v (hasFace_open _ _ _ _), hre]
    simp only [labelled]
    rw [hup v]
    decide
  · intro v
    rw [detectionPass_cons 300 300 _ [] v (hasFace_open _ _ _ _)]
    simp only [labelled]
    exact hup v

/-- C10 fails on the code: when the start button is clicked before the model
has loaded, both `startVideo` and the `then` of `handTrack.load` call
`runDetection`, in either order of the camera grant and the model load; two
passes are then pending, they stay two after any further events, and after the
next animation frame two `model.detect` calls are in flight at once. -/
theorem click_before_load_double_loop :
    (run pageLoad [Event.click, Event.modelLoaded, Event.cameraGranted]).pending = 2
    ∧ (run pageLoad [Event.click, Event.cameraGranted, Event.modelLoaded]).pending = 2
    ∧ (run pageLoad
        [Event.click, Event.modelLoaded, Event.cameraGranted, Event.tick]).detecting = 2
    ∧ (∀ events : List Event,
        (run pageLoad
          ([Event.click, Event.modelLoaded, Event.cameraGranted] ++ events)).pending = 2)
    ∧ (∀ events : List Event,
        (run pageLoad
          ([Event.click, Event.cameraGranted, Event.modelLoaded] ++ events)).pending = 2) := by
  refine ⟨by decide, by decide, by decide, ?_, ?_⟩
  · intro events
    have h := run_twoLoops events
      (run pageLoad [Event.click, Event.modelLoaded, Event.cameraGranted])
      (by unfold Driver.twoLoops; decide)
    simp only [run, List.foldl_append] at h ⊢
    exact h.2.2.2.2.2
  · intro events
    have h := run_twoLoops events
      (run pageLoad [Event.click, Event.cameraGranted, Event.modelLoaded])
      (by unfold Driver.twoLoops; decide)
    simp only [run, List.foldl_append] at h ⊢
    exact h.2.2.2.2.2

end GestureControl
